import Mathlib

/-!
# Verification of the smartattendance repository

Shallow embedding, in Lean 4, of the data model and operations of the
`smartattendance` Python repository (files `register_student.py`,
`mark_attendance.py`, `view_attendance.py`, `attendance_gui.py`, `app.py`),
together with theorems settling the frozen claims about it.

Conventions of the embedding:
* The SQLite tables `students` and `attendance` are lists of rows; the
  `AUTOINCREMENT id` column of `attendance` is the (implicit) list position.
* Face encodings are an abstract type `α`; the external library functions
  (`face_recognition.face_encodings`, `face_recognition.face_distance`,
  `np.argmin`) are modelled per their documented semantics: distances are
  rationals, `face_distance` maps the gallery pointwise, and `argmin`
  returns the first index attaining the minimum.
* Filesystem facts (`os.path.exists`, image loading, face counts) are
  parameters of the functions that consult them.
-/

namespace SmartAttendance

/-- A row of the `students` table (`student_id TEXT PRIMARY KEY, name, image_path`). -/
structure StudentRow where
  student_id : String
  name : String
  image_path : String
deriving DecidableEq, Repr

/-- A row of the `attendance` table (`student_id, date, time`); the
`AUTOINCREMENT id` is the position in the list of rows. -/
structure AttRow where
  student_id : String
  date : String
  time : String
deriving DecidableEq, Repr

/-- The SQLite database `attendance.db`: the two tables, rows in insertion order. -/
structure Db where
  students : List StudentRow
  attendance : List AttRow
deriving DecidableEq, Repr

/-- `FACE_RECOGNITION_TOLERANCE = 0.5` (mark_attendance.py line 17, app.py line 19,
attendance_gui.py line 19). -/
def FACE_RECOGNITION_TOLERANCE : ℚ := 1/2

/-- Minimum of a non-empty list of distances (`0` for the empty list, never used there). -/
def minList : List ℚ → ℚ
  | [] => 0
  | [x] => x
  | x :: y :: xs => min x (minList (y :: xs))

/-- `np.argmin` on a list of distances: per the numpy documentation, the index of
the FIRST occurrence of the minimum (`0` on the empty list, never used there). -/
def argmin : List ℚ → ℕ
  | [] => 0
  | [_] => 0
  | x :: y :: xs => if x ≤ minList (y :: xs) then 0 else argmin (y :: xs) + 1

/-- `face_recognition.face_distance(known_face_encodings, face_encoding)`:
one distance per gallery entry, in gallery order (a linear scan). -/
def face_distance {α : Type} (dist : α → α → ℚ) (encs : List α) (face : α) : List ℚ :=
  encs.map (fun e => dist e face)

/-- The three parallel lists built by `load_registered_faces`
(mark_attendance.py lines 66-68). -/
structure Gallery (α : Type) where
  known_face_encodings : List α
  known_face_ids : List String
  known_face_names : List String

/-- The per-face matching step of `run_attendance` (mark_attendance.py lines
173-192): `none` stands for the "Unknown" outcome, `some (student_id, name)`
for a recognized student. Out-of-range list accesses (which the code never
performs) are totalized with `getD`. -/
def matchFace {α : Type} (dist : α → α → ℚ) (g : Gallery α) (face : α) :
    Option (String × String) :=
  if g.known_face_encodings.isEmpty then none
  else
    let distances := face_distance dist g.known_face_encodings face
    let best_match_index := argmin distances
    let best_distance := distances.getD best_match_index 0
    if best_distance ≤ FACE_RECOGNITION_TOLERANCE then
      some (g.known_face_ids.getD best_match_index "",
            g.known_face_names.getD best_match_index "")
    else none

/-- The label appended to `face_labels` for a detected face (mark_attendance.py
lines 185 and 192): the matched student's name, or `"Unknown"`. -/
def face_label {α : Type} (dist : α → α → ℚ) (g : Gallery α) (face : α) : String :=
  match matchFace dist g face with
  | some (_, name) => name
  | none => "Unknown"

/-- `load_registered_faces` (mark_attendance.py lines 55-93): walk the `students`
rows in order; skip a row whose `image_path` does not exist on disk, skip a row
whose image yields no face encodings, and otherwise append the FIRST encoding of
the image together with the row's `student_id` and `name` to the three parallel
lists. `fileExists` models `os.path.exists`; `encodingsOf` models
`face_recognition.face_encodings(face_recognition.load_image_file path)`. -/
def load_registered_faces {α : Type} (fileExists : String → Bool)
    (encodingsOf : String → List α) : List StudentRow → Gallery α
  | [] => ⟨[], [], []⟩
  | r :: rest =>
    if fileExists r.image_path then
      match encodingsOf r.image_path with
      | [] => load_registered_faces fileExists encodingsOf rest
      | e :: _ =>
        let g := load_registered_faces fileExists encodingsOf rest
        ⟨e :: g.known_face_encodings, r.student_id :: g.known_face_ids,
         r.name :: g.known_face_names⟩
    else load_registered_faces fileExists encodingsOf rest

/-- `load_marked_students_today` (mark_attendance.py lines 96-105):
`SELECT DISTINCT student_id FROM attendance WHERE date = ?` with today's date
(`today_str`, formatted YYYY-MM-DD by the caller), returned as a set. -/
def load_marked_students_today (today_str : String) (attendance : List AttRow) :
    Finset String :=
  ((attendance.filter (fun r => r.date = today_str)).map (fun r => r.student_id)).toFinset

/-- The header row written when the CSV file is first created
(mark_attendance.py line 115). -/
def csvHeader : List String := ["Name", "Student ID", "Date", "Time"]

/-- `append_to_csv` (mark_attendance.py lines 108-116): the CSV file is a list of
rows, `none` when `attendance/attendance.csv` does not exist yet; a fresh file
gets the header row first, then the single data row is appended. -/
def append_to_csv (name student_id date_str time_str : String)
    (csv : Option (List (List String))) : List (List String) :=
  match csv with
  | none => [csvHeader, [name, student_id, date_str, time_str]]
  | some rows => rows ++ [[name, student_id, date_str, time_str]]

/-- The state the CLI `mark_attendance` acts on: the database and the CSV file. -/
structure CliState where
  db : Db
  csv : Option (List (List String))
deriving DecidableEq, Repr

/-- `mark_attendance(student_id, name)` (mark_attendance.py lines 119-135):
insert one `(student_id, date, time)` row into `attendance` and append one data
row to the CSV. `date_str`/`time_str` are `datetime.now()` formatted by the call. -/
def mark_attendance (student_id name date_str time_str : String) (st : CliState) :
    CliState :=
  { db := { students := st.db.students,
            attendance := st.db.attendance ++ [⟨student_id, date_str, time_str⟩] },
    csv := some (append_to_csv name student_id date_str time_str st.csv) }

/-- The mutable state of the `run_attendance` camera loop: the CLI state plus the
`students_marked_today` dedup set. -/
structure RunState where
  cli : CliState
  students_marked_today : Finset String

/-- Handling of one detected face inside a frame (mark_attendance.py lines
173-192, marking part lines 186-190): if the face matches a student whose id is
not yet in `students_marked_today`, mark attendance and add the id to the set;
otherwise leave the state unchanged. `now` is the `(date_str, time_str)` taken
by `mark_attendance` for this face. -/
def process_face {α : Type} (dist : α → α → ℚ) (g : Gallery α)
    (st : RunState) (ev : (String × String) × α) : RunState :=
  match matchFace dist g ev.2 with
  | none => st
  | some (student_id, name) =>
    if student_id ∈ st.students_marked_today then st
    else
      { cli := mark_attendance student_id name ev.1.1 ev.1.2 st.cli,
        students_marked_today := insert student_id st.students_marked_today }

/-- One iteration of the `while` loop of `run_attendance` (lines 161-219): every
face detected in the frame is processed in order. Each face event carries the
`datetime.now()` timestamp its `mark_attendance` call would use. -/
def process_frame {α : Type} (dist : α → α → ℚ) (g : Gallery α)
    (st : RunState) (frame : List ((String × String) × α)) : RunState :=
  frame.foldl (process_face dist g) st

/-- The whole camera loop of `run_attendance`, over the finite list of frames
read before quitting. -/
def run_attendance_loop {α : Type} (dist : α → α → ℚ) (g : Gallery α)
    (frames : List (List ((String × String) × α))) (st : RunState) : RunState :=
  frames.foldl (process_frame dist g) st

/-- The `RunState` at loop entry (mark_attendance.py line 147):
`students_marked_today = load_marked_students_today()`. -/
def run_attendance_start (today_str : String) (st : CliState) : RunState :=
  ⟨st, load_marked_students_today today_str st.db.attendance⟩

/-- Number of attendance rows for a given student id. -/
def countFor (student_id : String) (attendance : List AttRow) : ℕ :=
  (attendance.filter (fun r => r.student_id = student_id)).length

/-- The `INSERT INTO students ... ON CONFLICT(student_id) DO UPDATE SET`
upsert (register_student.py lines 120-129): if a row with the id exists it is
updated in place, otherwise a new row is appended. -/
def upsert_student (student_id name image_path : String)
    (students : List StudentRow) : List StudentRow :=
  if students.any (fun r => r.student_id = student_id) then
    students.map (fun r =>
      if r.student_id = student_id then ⟨student_id, name, image_path⟩ else r)
  else students ++ [⟨student_id, name, image_path⟩]

/-- The outcomes of `validate_and_copy_image` raising (register_student.py
lines 58-73). -/
inductive RegError where
  | fileNotFound
  | loadFailed
  | noFace
  | multipleFaces
deriving DecidableEq, Repr

/-- The destination filename `f"{student_id}_{filename_safe_name}{source_ext}"`
in `STUDENTS_DIR` (register_student.py lines 75-81); `source_ext` is
`Path(source_path).suffix`, with `".jpg"` as fallback when empty. -/
def dest_image_path (student_id name source_ext : String) : String :=
  "students/" ++ student_id ++ "_" ++ (name.trim.replace " " "_") ++
    (if source_ext = "" then ".jpg" else source_ext)

/-- The filesystem-and-database state the registration flow acts on:
the set of existing file paths and the `students` table. -/
structure RegState where
  files : List String
  students : List StudentRow
deriving DecidableEq, Repr

/-- `validate_and_copy_image` (register_student.py lines 50-87): raise if the
source file does not exist, if the image cannot be loaded, if no face or more
than one face is detected; otherwise copy the image into the students folder
and return the destination path. `loadOk` models `face_recognition.load_image_file`
succeeding; `numFaces` models `len(face_recognition.face_locations(image))`;
`suffixOf` models `Path(...).suffix`. -/
def validate_and_copy_image (loadOk : String → Bool) (numFaces : String → ℕ)
    (suffixOf : String → String) (source_path student_id name : String)
    (files : List String) : Except RegError (String × List String) :=
  if ¬ source_path ∈ files then .error .fileNotFound
  else if ¬ loadOk source_path then .error .loadFailed
  else if numFaces source_path = 0 then .error .noFace
  else if 1 < numFaces source_path then .error .multipleFaces
  else
    let dest := dest_image_path student_id name (suffixOf source_path)
    .ok (dest, files ++ [dest])

/-- `register_student` (register_student.py lines 90-134). Inputs are the values
read by `input(...)` (before `.strip()`; the quote-stripping of the path input
is left to the caller). On empty inputs or any validation error the state is
returned unchanged; otherwise the image is copied and the student row upserted. -/
def register_student (loadOk : String → Bool) (numFaces : String → ℕ)
    (suffixOf : String → String) (student_id_input name_input source_path : String)
    (st : RegState) : RegState :=
  let student_id := student_id_input.trim
  let name := name_input.trim
  if student_id = "" ∨ name = "" then st
  else if source_path = "" then st
  else
    match validate_and_copy_image loadOk numFaces suffixOf source_path student_id name
        st.files with
    | .error _ => st
    | .ok (dest, files') =>
      { files := files', students := upsert_student student_id name dest st.students }

/- ### The four database operations of the three front-ends -/

/-- Web upsert: the `INSERT ... ON CONFLICT(student_id) DO UPDATE SET` issued by
the Register Student page (app.py lines 215-224); the SQL is identical to the
CLI's (register_student.py lines 120-129). -/
def web_upsert_student (student_id name image_path : String)
    (students : List StudentRow) : List StudentRow :=
  if students.any (fun r => r.student_id = student_id) then
    students.map (fun r =>
      if r.student_id = student_id then ⟨student_id, name, image_path⟩ else r)
  else students ++ [⟨student_id, name, image_path⟩]

/-- GUI upsert: the `INSERT ... ON CONFLICT(student_id) DO UPDATE SET` issued by
`AttendanceSystemGUI.register_student` (attendance_gui.py lines 261-270). -/
def gui_upsert_student (student_id name image_path : String)
    (students : List StudentRow) : List StudentRow :=
  if students.any (fun r => r.student_id = student_id) then
    students.map (fun r =>
      if r.student_id = student_id then ⟨student_id, name, image_path⟩ else r)
  else students ++ [⟨student_id, name, image_path⟩]

/-- CLI attendance insert: `INSERT INTO attendance (student_id, date, time)
VALUES (?, ?, ?)` (mark_attendance.py lines 127-130). -/
def cli_insert_attendance (student_id date_str time_str : String)
    (attendance : List AttRow) : List AttRow :=
  attendance ++ [⟨student_id, date_str, time_str⟩]

/-- Web attendance insert: the identical `INSERT INTO attendance` of the Mark
Attendance page (app.py lines 366-369). -/
def web_insert_attendance (student_id date_str time_str : String)
    (attendance : List AttRow) : List AttRow :=
  attendance ++ [⟨student_id, date_str, time_str⟩]

/-- GUI attendance insert: the identical `INSERT INTO attendance` of
`AttendanceSystemGUI.mark_attendance` (attendance_gui.py lines 333-336). -/
def gui_insert_attendance (student_id date_str time_str : String)
    (attendance : List AttRow) : List AttRow :=
  attendance ++ [⟨student_id, date_str, time_str⟩]

/-- Web `get_marked_students_today` (app.py lines 283-290): the identical
`SELECT DISTINCT student_id FROM attendance WHERE date = ?`. -/
def get_marked_students_today (today_str : String) (attendance : List AttRow) :
    Finset String :=
  ((attendance.filter (fun r => r.date = today_str)).map (fun r => r.student_id)).toFinset

/-- GUI `AttendanceSystemGUI.load_marked_students_today` (attendance_gui.py
lines 315-323): the identical `SELECT DISTINCT student_id ... WHERE date = ?`. -/
def gui_load_marked_students_today (today_str : String) (attendance : List AttRow) :
    Finset String :=
  ((attendance.filter (fun r => r.date = today_str)).map (fun r => r.student_id)).toFinset

/-- One row of the joined attendance view:
`SELECT s.name, a.student_id, a.date, a.time`. -/
structure RecordRow where
  name : String
  student_id : String
  date : String
  time : String
deriving DecidableEq, Repr

/-- The inner join `FROM attendance a JOIN students s ON a.student_id =
s.student_id`, before `ORDER BY`: one output row per matching (a, s) pair,
in table order. -/
def joined_records (db : Db) : List RecordRow :=
  db.attendance.flatMap (fun a =>
    (db.students.filter (fun s => s.student_id = a.student_id)).map
      (fun s => ⟨s.name, a.student_id, a.date, a.time⟩))

/-- `ORDER BY a.date, a.time` (ascending), as a relation on joined rows. -/
def recordLeAsc (x y : RecordRow) : Prop :=
  x.date < y.date ∨ (x.date = y.date ∧ x.time ≤ y.time)

/-- `ORDER BY a.date DESC, a.time DESC`, as a relation on joined rows. -/
def recordLeDesc (x y : RecordRow) : Prop :=
  y.date < x.date ∨ (x.date = y.date ∧ y.time ≤ x.time)

instance : DecidableRel recordLeAsc := fun x y =>
  inferInstanceAs (Decidable (x.date < y.date ∨ (x.date = y.date ∧ x.time ≤ y.time)))

instance : DecidableRel recordLeDesc := fun x y =>
  inferInstanceAs (Decidable (y.date < x.date ∨ (x.date = y.date ∧ y.time ≤ x.time)))

/-- CLI `fetch_records_where` with no filter (view_attendance.py lines 44-62):
the join ordered by `a.date, a.time` ascending. -/
def fetch_records_where (db : Db) : List RecordRow :=
  List.insertionSort recordLeAsc (joined_records db)

/-- Web View Records page, "All Records" (app.py lines 445-453): the join
ordered by `a.date DESC, a.time DESC`. -/
def web_view_all_records (db : Db) : List RecordRow :=
  List.insertionSort recordLeDesc (joined_records db)

/-- GUI `view_records("all")` (attendance_gui.py lines 454-458): the join
ordered by `a.date DESC, a.time DESC`. -/
def gui_view_all_records (db : Db) : List RecordRow :=
  List.insertionSort recordLeDesc (joined_records db)

/- ### Census of exception handling -/

/-- Kinds of `try` statements. -/
inductive HandlerKind where
  | tryExcept
  | tryFinallyOnly
deriving DecidableEq, Repr

/-- One `try` statement of the repository. -/
structure ExceptionHandler where
  file : String
  startLine : ℕ
  endLine : ℕ
  wraps : String
  kind : HandlerKind
  retriesFailedStep : Bool
deriving DecidableEq, Repr

/-- Census of every `try` statement in the repository, transcribed from source:
* register_student.py 62-65: `try`/`except Exception` around
  `face_recognition.load_image_file`, re-raised as `RuntimeError`;
* register_student.py 110-114: `try`/`except (FileNotFoundError, RuntimeError)`
  around `validate_and_copy_image`, prints and returns;
* app.py 186-234: `try`/`except Exception` around the web registration flow
  (temp-file write, image load, validation, copy, DB upsert);
* attendance_gui.py 237-284: `try`/`except Exception` around the GUI
  registration flow (image load, validation, copy, DB upsert);
* mark_attendance.py 160-223: `try`/`finally` around the camera loop, releasing
  the camera; it catches nothing.
None of them re-attempts the failed step. view_attendance.py has no `try`. -/
def exception_handlers : List ExceptionHandler :=
  [⟨"register_student.py", 62, 65,
    "face_recognition.load_image_file (image file I/O)", .tryExcept, false⟩,
   ⟨"register_student.py", 110, 114,
    "validate_and_copy_image (image file I/O and face validation)", .tryExcept, false⟩,
   ⟨"app.py", 186, 234,
    "web registration flow (temp-file write, image load, validation, copy, upsert)",
    .tryExcept, false⟩,
   ⟨"attendance_gui.py", 237, 284,
    "GUI registration flow (image load, validation, copy, upsert)", .tryExcept, false⟩,
   ⟨"mark_attendance.py", 160, 223,
    "camera loop; finally releases the camera, catches nothing", .tryFinallyOnly, false⟩]

/- ### Lemmas about `minList` and `argmin` -/

theorem minList_le_getD (l : List ℚ) :
    ∀ j, j < l.length → minList l ≤ l.getD j 0 := by
  induction l with
  | nil => intro j hj; simp at hj
  | cons x xs ih =>
    intro j hj
    cases xs with
    | nil =>
      cases j with
      | zero => simp [minList]
      | succ k => simp only [List.length_cons, List.length_nil] at hj; omega
    | cons y t =>
      cases j with
      | zero => simp [minList]
      | succ k =>
        have hk : k < (y :: t).length := by
          simpa [List.length_cons] using Nat.lt_of_succ_lt_succ hj
        calc minList (x :: y :: t) ≤ minList (y :: t) := by
              simp [minList]
          _ ≤ (y :: t).getD k 0 := ih k hk
          _ = (x :: y :: t).getD (k + 1) 0 := by simp

theorem argmin_lt_length (l : List ℚ) (h : l ≠ []) : argmin l < l.length := by
  induction l with
  | nil => simp at h
  | cons x xs ih =>
    cases xs with
    | nil => simp [argmin]
    | cons y t =>
      by_cases hx : x ≤ minList (y :: t)
      · simp [argmin, hx]
      · have h2 := ih (by simp)
        simp only [List.length_cons] at h2 ⊢
        simp only [argmin, hx, if_false]
        omega

theorem getD_argmin (l : List ℚ) (h : l ≠ []) : l.getD (argmin l) 0 = minList l := by
  induction l with
  | nil => simp at h
  | cons x xs ih =>
    cases xs with
    | nil => simp [argmin, minList]
    | cons y t =>
      by_cases hx : x ≤ minList (y :: t)
      · simp only [argmin, hx, if_true, List.getD]
        simp [minList, min_eq_left hx]
      · have hrec := ih (by simp)
        push_neg at hx
        simp only [argmin, hx.not_le, if_false]
        simp only [List.getD_cons_succ, hrec]
        simp [minList, min_eq_right (le_of_lt hx)]

theorem argmin_first (l : List ℚ) :
    ∀ j, j < l.length → l.getD j 0 = minList l → argmin l ≤ j := by
  induction l with
  | nil => intro j hj; simp at hj
  | cons x xs ih =>
    intro j hj hval
    cases xs with
    | nil => simp [argmin]
    | cons y t =>
      by_cases hx : x ≤ minList (y :: t)
      · simp [argmin, hx]
      · push_neg at hx
        simp only [argmin, hx.not_le, if_false]
        cases j with
        | zero =>
          exfalso
          simp only [List.getD_cons_zero, minList] at hval
          rw [min_eq_right (le_of_lt hx)] at hval
          exact absurd hval.symm (ne_of_lt hx)
        | succ k =>
          have hk : k < (y :: t).length := by
            simpa [List.length_cons] using Nat.lt_of_succ_lt_succ hj
          have hvk : (y :: t).getD k 0 = minList (y :: t) := by
            have : (x :: y :: t).getD (k + 1) 0 = (y :: t).getD k 0 := by simp
            rw [this] at hval
            rw [hval]
            simp [minList, min_eq_right (le_of_lt hx)]
          have := ih k hk hvk
          omega

end SmartAttendance

namespace SmartAttendance

/- ### Helper lemmas for the gallery and the matcher -/

theorem face_distance_length {α : Type} (dist : α → α → ℚ) (encs : List α) (face : α) :
    (face_distance dist encs face).length = encs.length := by
  simp [face_distance]

theorem load_registered_faces_ids_length {α : Type} (fileExists : String → Bool)
    (encodingsOf : String → List α) (rows : List StudentRow) :
    (load_registered_faces fileExists encodingsOf rows).known_face_ids.length =
      (load_registered_faces fileExists encodingsOf rows).known_face_encodings.length := by
  induction rows with
  | nil => rfl
  | cons r rest ih =>
    by_cases hf : fileExists r.image_path
    · cases he : encodingsOf r.image_path with
      | nil => simpa [load_registered_faces, hf, he] using ih
      | cons e es => simpa [load_registered_faces, hf, he] using ih
    · simpa [load_registered_faces, hf] using ih

theorem load_registered_faces_names_length {α : Type} (fileExists : String → Bool)
    (encodingsOf : String → List α) (rows : List StudentRow) :
    (load_registered_faces fileExists encodingsOf rows).known_face_names.length =
      (load_registered_faces fileExists encodingsOf rows).known_face_encodings.length := by
  induction rows with
  | nil => rfl
  | cons r rest ih =>
    by_cases hf : fileExists r.image_path
    · cases he : encodingsOf r.image_path with
      | nil => simpa [load_registered_faces, hf, he] using ih
      | cons e es => simpa [load_registered_faces, hf, he] using ih
    · simpa [load_registered_faces, hf] using ih

theorem face_distance_ne_nil {α : Type} (dist : α → α → ℚ) (encs : List α) (face : α)
    (h : encs ≠ []) : face_distance dist encs face ≠ [] := by
  simpa [face_distance] using h

/-- C1: for every non-empty gallery and every detected face encoding, the
per-frame matcher computes one distance per gallery entry by a linear scan
(`face_distance` maps `dist` over the gallery in order), selects an index of
minimal distance (`argmin`), and yields the matched student (whose `name`
labels the face) exactly when that minimal distance is at most the fixed
tolerance `1/2`; otherwise the label is `"Unknown"`. -/
theorem matcher_nearest_neighbor_threshold {α : Type} (dist : α → α → ℚ)
    (g : Gallery α) (face : α) (hne : g.known_face_encodings ≠ []) :
    (face_distance dist g.known_face_encodings face =
      g.known_face_encodings.map (fun e => dist e face)) ∧
    (∀ j, j < (face_distance dist g.known_face_encodings face).length →
      (face_distance dist g.known_face_encodings face).getD
          (argmin (face_distance dist g.known_face_encodings face)) 0 ≤
        (face_distance dist g.known_face_encodings face).getD j 0) ∧
    (matchFace dist g face =
      if (face_distance dist g.known_face_encodings face).getD
          (argmin (face_distance dist g.known_face_encodings face)) 0 ≤
          FACE_RECOGNITION_TOLERANCE
      then some (g.known_face_ids.getD
                  (argmin (face_distance dist g.known_face_encodings face)) "",
                 g.known_face_names.getD
                  (argmin (face_distance dist g.known_face_encodings face)) "")
      else none) ∧
    (face_label dist g face =
      if (face_distance dist g.known_face_encodings face).getD
          (argmin (face_distance dist g.known_face_encodings face)) 0 ≤
          FACE_RECOGNITION_TOLERANCE
      then g.known_face_names.getD
            (argmin (face_distance dist g.known_face_encodings face)) ""
      else "Unknown") := by
  have hds : face_distance dist g.known_face_encodings face ≠ [] :=
    face_distance_ne_nil dist _ face hne
  have hmin : ∀ j, j < (face_distance dist g.known_face_encodings face).length →
      (face_distance dist g.known_face_encodings face).getD
        (argmin (face_distance dist g.known_face_encodings face)) 0 ≤
      (face_distance dist g.known_face_encodings face).getD j 0 := by
    intro j hj
    rw [getD_argmin _ hds]
    exact minList_le_getD _ j hj
  have hmatch : matchFace dist g face =
      if (face_distance dist g.known_face_encodings face).getD
          (argmin (face_distance dist g.known_face_encodings face)) 0 ≤
          FACE_RECOGNITION_TOLERANCE
      then some (g.known_face_ids.getD
                  (argmin (face_distance dist g.known_face_encodings face)) "",
                 g.known_face_names.getD
                  (argmin (face_distance dist g.known_face_encodings face)) "")
      else none := by
    simp only [matchFace]
    rw [if_neg (by simp [List.isEmpty_iff, hne])]
  refine ⟨rfl, hmin, hmatch, ?_⟩
  have hlab : face_label dist g face =
      match matchFace dist g face with
      | some (_, name) => name
      | none => "Unknown" := rfl
  rw [hlab, hmatch]
  by_cases hle : (face_distance dist g.known_face_encodings face).getD
      (argmin (face_distance dist g.known_face_encodings face)) 0 ≤
      FACE_RECOGNITION_TOLERANCE
  · rw [if_pos hle, if_pos hle]
  · rw [if_neg hle, if_neg hle]

/-- C1 witness: concrete one-dimensional encodings; the gallery entry at
distance `0 ≤ 1/2` is matched. -/
theorem matcher_nearest_neighbor_threshold_witness :
    matchFace (fun x y => |x - y|)
      (⟨[(0 : ℚ), 1], ["S1", "S2"], ["Alice", "Bob"]⟩ : Gallery ℚ) 0 =
      some ("S1", "Alice") := by
  have h := (matcher_nearest_neighbor_threshold (fun x y => |x - y|)
    (⟨[(0 : ℚ), 1], ["S1", "S2"], ["Alice", "Bob"]⟩ : Gallery ℚ) 0
    (by simp)).2.2.1
  rw [h]
  norm_num [face_distance, argmin, minList, FACE_RECOGNITION_TOLERANCE]

/-- C9: on ties, the matcher deterministically selects the gallery entry with
the smallest index: `argmin` (the embedding of `np.argmin`, which returns the
first occurrence of the minimum) is in bounds, attains the minimum of the
distance list, and is below every other index attaining the minimum. -/
theorem argmin_first_occurrence {α : Type} (dist : α → α → ℚ)
    (g : Gallery α) (face : α) (hne : g.known_face_encodings ≠ []) :
    argmin (face_distance dist g.known_face_encodings face) <
      (face_distance dist g.known_face_encodings face).length ∧
    (face_distance dist g.known_face_encodings face).getD
      (argmin (face_distance dist g.known_face_encodings face)) 0 =
      minList (face_distance dist g.known_face_encodings face) ∧
    (∀ j, j < (face_distance dist g.known_face_encodings face).length →
      (face_distance dist g.known_face_encodings face).getD j 0 =
        minList (face_distance dist g.known_face_encodings face) →
      argmin (face_distance dist g.known_face_encodings face) ≤ j) := by
  have hds : face_distance dist g.known_face_encodings face ≠ [] :=
    face_distance_ne_nil dist _ face hne
  exact ⟨argmin_lt_length _ hds, getD_argmin _ hds, argmin_first _⟩

/-- C9 witness: two gallery entries at the same distance `1` from the face;
the first index is selected. -/
theorem argmin_first_occurrence_witness :
    argmin (face_distance (fun x y => |x - y|)
      (Gallery.known_face_encodings
        (⟨[(1 : ℚ), 1], ["S1", "S2"], ["Alice", "Bob"]⟩ : Gallery ℚ)) 0) = 0 := by
  have h := (argmin_first_occurrence (fun x y => |x - y|)
    (⟨[(1 : ℚ), 1], ["S1", "S2"], ["Alice", "Bob"]⟩ : Gallery ℚ) 0
    (by simp)).2.2 0 (by norm_num [face_distance])
    (by norm_num [face_distance, minList])
  omega

end SmartAttendance

namespace SmartAttendance

/-- C8: the three lists built by `load_registered_faces` are parallel (one entry
per successfully loaded student), so the argmin index into the distance list
computed from `known_face_encodings` is a valid index into `known_face_ids` and
`known_face_names`. -/
theorem gallery_parallel_lists_in_bounds {α : Type} (fileExists : String → Bool)
    (encodingsOf : String → List α) (rows : List StudentRow) :
    (load_registered_faces fileExists encodingsOf rows).known_face_ids.length =
      (load_registered_faces fileExists encodingsOf rows).known_face_encodings.length ∧
    (load_registered_faces fileExists encodingsOf rows).known_face_names.length =
      (load_registered_faces fileExists encodingsOf rows).known_face_encodings.length ∧
    (∀ (dist : α → α → ℚ) (face : α),
      (load_registered_faces fileExists encodingsOf rows).known_face_encodings ≠ [] →
      argmin (face_distance dist
          (load_registered_faces fileExists encodingsOf rows).known_face_encodings face) <
        (load_registered_faces fileExists encodingsOf rows).known_face_ids.length ∧
      argmin (face_distance dist
          (load_registered_faces fileExists encodingsOf rows).known_face_encodings face) <
        (load_registered_faces fileExists encodingsOf rows).known_face_names.length) := by
  refine ⟨load_registered_faces_ids_length fileExists encodingsOf rows,
          load_registered_faces_names_length fileExists encodingsOf rows, ?_⟩
  intro dist face hne
  have h1 := argmin_lt_length _ (face_distance_ne_nil dist _ face hne)
  rw [face_distance_length] at h1
  constructor
  · rw [load_registered_faces_ids_length]; exact h1
  · rw [load_registered_faces_names_length]; exact h1

/-- C8 witness: a gallery loaded from one student row with one encoding; the
argmin index `0` is in bounds for the id and name lists (both of length `1`). -/
theorem gallery_parallel_lists_in_bounds_witness :
    argmin (face_distance (fun x y : ℚ => |x - y|)
        (load_registered_faces (fun _ => true) (fun _ => [(0 : ℚ)])
          [⟨"S1", "Alice", "students/S1_Alice.jpg"⟩]).known_face_encodings 0) <
      (load_registered_faces (fun _ => true) (fun _ => [(0 : ℚ)])
        [⟨"S1", "Alice", "students/S1_Alice.jpg"⟩]).known_face_ids.length :=
  ((gallery_parallel_lists_in_bounds (fun _ => true) (fun _ => [(0 : ℚ)])
      [⟨"S1", "Alice", "students/S1_Alice.jpg"⟩]).2.2
    (fun x y : ℚ => |x - y|) 0 (by simp [load_registered_faces])).1

/-- C3: `load_marked_students_today` returns exactly the set of distinct
`student_id` values having at least one `attendance` row whose `date` equals
today's date string; ids with rows only on other dates are not in the set. -/
theorem marked_today_characterization (today_str : String)
    (attendance : List AttRow) (sid : String) :
    sid ∈ load_marked_students_today today_str attendance ↔
      ∃ r ∈ attendance, r.student_id = sid ∧ r.date = today_str := by
  simp only [load_marked_students_today, List.mem_toFinset, List.mem_map,
    List.mem_filter, decide_eq_true_eq]
  constructor
  · rintro ⟨r, ⟨hr, hdate⟩, hsid⟩
    exact ⟨r, hr, hsid, hdate⟩
  · rintro ⟨r, hr, hsid, hdate⟩
    exact ⟨r, ⟨hr, hdate⟩, hsid⟩

/-- C3 witness: a student with a row dated today is in the set; the
characterization is applied at a concrete table. -/
theorem marked_today_characterization_witness :
    "S1" ∈ load_marked_students_today "2024-01-02"
      [⟨"S1", "2024-01-02", "09:00:00"⟩, ⟨"S2", "2024-01-01", "09:00:00"⟩] :=
  (marked_today_characterization "2024-01-02"
      [⟨"S1", "2024-01-02", "09:00:00"⟩, ⟨"S2", "2024-01-01", "09:00:00"⟩] "S1").mpr
    ⟨⟨"S1", "2024-01-02", "09:00:00"⟩, by simp, rfl, rfl⟩

/-- The condition under which `load_registered_faces` keeps a `students` row:
its image file exists and the image yields at least one face encoding. -/
def keep_row {α : Type} (fileExists : String → Bool) (encodingsOf : String → List α)
    (r : StudentRow) : Bool :=
  fileExists r.image_path && !(encodingsOf r.image_path).isEmpty

/-- C4: `load_registered_faces` returns a gallery containing exactly the
`students` rows whose image exists and yields at least one encoding, in table
order; for each kept student the FIRST encoding of its image is stored
(`headD` retrieves it; `e₀` is an arbitrary fallback never used). Rows with a
missing file or no detected face are skipped (the function is total: no error
is raised). -/
theorem load_registered_faces_gallery {α : Type} (fileExists : String → Bool)
    (encodingsOf : String → List α) (rows : List StudentRow) (e₀ : α) :
    (load_registered_faces fileExists encodingsOf rows).known_face_ids =
      (rows.filter (keep_row fileExists encodingsOf)).map (fun r => r.student_id) ∧
    (load_registered_faces fileExists encodingsOf rows).known_face_names =
      (rows.filter (keep_row fileExists encodingsOf)).map (fun r => r.name) ∧
    (load_registered_faces fileExists encodingsOf rows).known_face_encodings =
      (rows.filter (keep_row fileExists encodingsOf)).map
        (fun r => (encodingsOf r.image_path).headD e₀) := by
  induction rows with
  | nil => exact ⟨rfl, rfl, rfl⟩
  | cons r rest ih =>
    by_cases hf : fileExists r.image_path
    · cases he : encodingsOf r.image_path with
      | nil =>
        have hk : keep_row fileExists encodingsOf r = false := by
          simp [keep_row, hf, he]
        simpa [load_registered_faces, hf, he, List.filter_cons, hk] using ih
      | cons e es =>
        have hk : keep_row fileExists encodingsOf r = true := by
          simp [keep_row, hf, he]
        refine ⟨?_, ?_, ?_⟩ <;>
          simp [load_registered_faces, hf, he, List.filter_cons, hk, ih.1, ih.2.1, ih.2.2]
    · have hk : keep_row fileExists encodingsOf r = false := by
        simp [keep_row, hf]
      simpa [load_registered_faces, hf, List.filter_cons, hk] using ih

end SmartAttendance

namespace SmartAttendance

/-- C5: each call of the CLI `mark_attendance` appends exactly one
`(student_id, date, time)` row to the `attendance` table (existing rows and the
`students` table are untouched) and appends exactly one data row to the CSV
(creating it with the header first if it did not exist). -/
theorem mark_attendance_frame (student_id name date_str time_str : String)
    (st : CliState) :
    (mark_attendance student_id name date_str time_str st).db.students =
      st.db.students ∧
    (mark_attendance student_id name date_str time_str st).db.attendance.length =
      st.db.attendance.length + 1 ∧
    (mark_attendance student_id name date_str time_str st).db.attendance.take
      st.db.attendance.length = st.db.attendance ∧
    (mark_attendance student_id name date_str time_str st).db.attendance.drop
      st.db.attendance.length = [⟨student_id, date_str, time_str⟩] ∧
    (st.csv = none →
      (mark_attendance student_id name date_str time_str st).csv =
        some [csvHeader, [name, student_id, date_str, time_str]]) ∧
    (∀ rows, st.csv = some rows →
      (mark_attendance student_id name date_str time_str st).csv =
        some (rows ++ [[name, student_id, date_str, time_str]])) := by
  refine ⟨rfl, by simp [mark_attendance], ?_, ?_, ?_, ?_⟩
  · show (st.db.attendance ++ [(⟨student_id, date_str, time_str⟩ : AttRow)]).take
      st.db.attendance.length = st.db.attendance
    exact List.take_left _ _
  · show (st.db.attendance ++ [(⟨student_id, date_str, time_str⟩ : AttRow)]).drop
      st.db.attendance.length = [(⟨student_id, date_str, time_str⟩ : AttRow)]
    exact List.drop_left _ _
  · intro h; simp [mark_attendance, append_to_csv, h]
  · intro rows h; simp [mark_attendance, append_to_csv, h]

/-- C5 witness: one call on a concrete state with an existing CSV appends one
attendance row and one CSV data row. -/
theorem mark_attendance_frame_witness :
    (mark_attendance "S1" "Alice" "2024-01-02" "09:00:00"
        ⟨⟨[⟨"S1", "Alice", "p"⟩], [⟨"S1", "2024-01-01", "08:00:00"⟩]⟩,
         some [csvHeader]⟩).db.attendance.drop 1 =
      [⟨"S1", "2024-01-02", "09:00:00"⟩] ∧
    (mark_attendance "S1" "Alice" "2024-01-02" "09:00:00"
        ⟨⟨[⟨"S1", "Alice", "p"⟩], [⟨"S1", "2024-01-01", "08:00:00"⟩]⟩,
         some [csvHeader]⟩).csv =
      some [csvHeader, ["Alice", "S1", "2024-01-02", "09:00:00"]] := by
  have h := mark_attendance_frame "S1" "Alice" "2024-01-02" "09:00:00"
    ⟨⟨[⟨"S1", "Alice", "p"⟩], [⟨"S1", "2024-01-01", "08:00:00"⟩]⟩, some [csvHeader]⟩
  exact ⟨h.2.2.2.1, h.2.2.2.2.2 [csvHeader] rfl⟩

/- ### The dedup invariant of the camera loop -/

theorem countFor_append_single (s student_id date_str time_str : String)
    (attendance : List AttRow) :
    countFor s (attendance ++ [⟨student_id, date_str, time_str⟩]) =
      countFor s attendance + (if student_id = s then 1 else 0) := by
  simp only [countFor, List.filter_append]
  by_cases h : student_id = s
  · simp [h]
  · simp [List.filter, h]

/-- The invariant relating a loop state `st` back to the state `st0` the loop
started from: the dedup set only grows, and a student's attendance count grew
by one exactly when the student entered the dedup set during the run. -/
def MarkedInv (st0 st : RunState) : Prop :=
  st0.students_marked_today ⊆ st.students_marked_today ∧
  ∀ sid, countFor sid st.cli.db.attendance =
    countFor sid st0.cli.db.attendance +
      (if sid ∈ st.students_marked_today ∧ sid ∉ st0.students_marked_today
       then 1 else 0)

theorem markedInv_refl (st0 : RunState) : MarkedInv st0 st0 := by
  refine ⟨Finset.Subset.refl _, fun sid => ?_⟩
  simp

theorem markedInv_process_face {α : Type} (dist : α → α → ℚ) (g : Gallery α)
    (st0 st : RunState) (ev : (String × String) × α) (h : MarkedInv st0 st) :
    MarkedInv st0 (process_face dist g st ev) := by
  unfold process_face
  cases hm : matchFace dist g ev.2 with
  | none => exact h
  | some p =>
    obtain ⟨sid, name⟩ := p
    by_cases hmem : sid ∈ st.students_marked_today
    · simp only [hmem, if_true]
      exact h
    · simp only [hmem, if_false]
      refine ⟨h.1.trans (Finset.subset_insert _ _), fun s => ?_⟩
      have hcount : countFor s (mark_attendance sid name ev.1.1 ev.1.2 st.cli).db.attendance
          = countFor s st.cli.db.attendance + (if sid = s then 1 else 0) := by
        show countFor s (st.cli.db.attendance ++ [⟨sid, ev.1.1, ev.1.2⟩]) = _
        exact countFor_append_single s sid ev.1.1 ev.1.2 st.cli.db.attendance
      rw [hcount, h.2 s]
      by_cases hs : sid = s
      · subst hs
        have h0 : sid ∉ st0.students_marked_today := fun hc => hmem (h.1 hc)
        simp [hmem, h0, Finset.mem_insert]
      · have hins : (s ∈ insert sid st.students_marked_today) ↔
            s ∈ st.students_marked_today := by
          rw [Finset.mem_insert]
          constructor
          · rintro (hc | hc)
            · exact absurd hc.symm hs
            · exact hc
          · exact Or.inr
        by_cases hsm : s ∈ st.students_marked_today ∧ s ∉ st0.students_marked_today
        · simp [hsm.1, hsm.2, hins.mpr hsm.1, hs]
        · have hnot : ¬ (s ∈ insert sid st.students_marked_today ∧
              s ∉ st0.students_marked_today) := fun hc => hsm ⟨hins.mp hc.1, hc.2⟩
          simp [hsm, hnot, hs]
          rintro (hc | hc)
          · exact absurd hc.symm hs
          · by_contra h0
            exact hsm ⟨hc, h0⟩

theorem markedInv_process_frame {α : Type} (dist : α → α → ℚ) (g : Gallery α)
    (st0 : RunState) (frame : List ((String × String) × α)) :
    ∀ st, MarkedInv st0 st → MarkedInv st0 (process_frame dist g st frame) := by
  induction frame with
  | nil => intro st h; exact h
  | cons ev rest ih =>
    intro st h
    have h1 := markedInv_process_face dist g st0 st ev h
    simpa [process_frame, List.foldl_cons] using ih _ h1

theorem markedInv_run {α : Type} (dist : α → α → ℚ) (g : Gallery α)
    (st0 : RunState) (frames : List (List ((String × String) × α))) :
    ∀ st, MarkedInv st0 st → MarkedInv st0 (run_attendance_loop dist g frames st) := by
  induction frames with
  | nil => intro st h; exact h
  | cons f rest ih =>
    intro st h
    have h1 := markedInv_process_frame dist g st0 f st h
    simpa [run_attendance_loop, List.foldl_cons] using ih _ h1

end SmartAttendance

namespace SmartAttendance

/-- C2: during a single run of the attendance camera loop, a student is never
marked more than once. Starting from `students_marked_today =
load_marked_students_today` (so an id is initially in the set exactly when an
attendance row with today's date existed at startup), the set only grows; an id
already in the set when a frame is processed gets no new attendance row; every
student's row count grows by at most one; and it grows by exactly one precisely
for the ids that entered the set during the run (the first successful match of a
not-yet-marked student inserts the row and adds the id). -/
theorem run_attendance_dedup {α : Type} (dist : α → α → ℚ) (g : Gallery α)
    (today_str : String) (st : CliState)
    (frames : List (List ((String × String) × α))) :
    (run_attendance_start today_str st).students_marked_today ⊆
      (run_attendance_loop dist g frames
        (run_attendance_start today_str st)).students_marked_today ∧
    (∀ sid, countFor sid (run_attendance_loop dist g frames
        (run_attendance_start today_str st)).cli.db.attendance =
      countFor sid st.db.attendance +
        (if sid ∈ (run_attendance_loop dist g frames
              (run_attendance_start today_str st)).students_marked_today ∧
            sid ∉ load_marked_students_today today_str st.db.attendance
         then 1 else 0)) ∧
    (∀ sid, sid ∈ load_marked_students_today today_str st.db.attendance →
      countFor sid (run_attendance_loop dist g frames
          (run_attendance_start today_str st)).cli.db.attendance =
        countFor sid st.db.attendance) ∧
    (∀ sid, countFor sid (run_attendance_loop dist g frames
        (run_attendance_start today_str st)).cli.db.attendance ≤
      countFor sid st.db.attendance + 1) := by
  have h := markedInv_run dist g (run_attendance_start today_str st) frames
    (run_attendance_start today_str st) (markedInv_refl _)
  have e1 : (run_attendance_start today_str st).cli.db.attendance =
      st.db.attendance := rfl
  have e2 : (run_attendance_start today_str st).students_marked_today =
      load_marked_students_today today_str st.db.attendance := rfl
  have hcnt : ∀ sid, countFor sid (run_attendance_loop dist g frames
      (run_attendance_start today_str st)).cli.db.attendance =
    countFor sid st.db.attendance +
      (if sid ∈ (run_attendance_loop dist g frames
            (run_attendance_start today_str st)).students_marked_today ∧
          sid ∉ load_marked_students_today today_str st.db.attendance
       then 1 else 0) := by
    intro sid
    have h2 := h.2 sid
    rwa [e1, e2] at h2
  refine ⟨h.1, hcnt, fun sid hsid => ?_, fun sid => ?_⟩
  · rw [hcnt sid]
    have hno : ¬ (sid ∈ (run_attendance_loop dist g frames
        (run_attendance_start today_str st)).students_marked_today ∧
        sid ∉ load_marked_students_today today_str st.db.attendance) :=
      fun hc => hc.2 hsid
    simp [hno]
  · rw [hcnt sid]
    split <;> omega

/-- C2 witness: a student already marked today is matched again during the run
and its attendance count stays unchanged. -/
theorem run_attendance_dedup_witness :
    countFor "S1" (run_attendance_loop (fun x y : ℚ => |x - y|)
        (⟨[(0 : ℚ)], ["S1"], ["Alice"]⟩ : Gallery ℚ)
        [[(("2024-01-02", "09:00:00"), (0 : ℚ))]]
        (run_attendance_start "2024-01-02"
          ⟨⟨[⟨"S1", "Alice", "p"⟩], [⟨"S1", "2024-01-02", "08:00:00"⟩]⟩,
           none⟩)).cli.db.attendance =
      countFor "S1" [⟨"S1", "2024-01-02", "08:00:00"⟩] :=
  (run_attendance_dedup (fun x y : ℚ => |x - y|)
      (⟨[(0 : ℚ)], ["S1"], ["Alice"]⟩ : Gallery ℚ) "2024-01-02"
      ⟨⟨[⟨"S1", "Alice", "p"⟩], [⟨"S1", "2024-01-02", "08:00:00"⟩]⟩, none⟩
      [[(("2024-01-02", "09:00:00"), (0 : ℚ))]]).2.2.1 "S1" (by decide)

end SmartAttendance

namespace SmartAttendance

/-- C6 counterexample: on a database with two attendance rows on different
dates, the CLI's record retrieval (`ORDER BY a.date, a.time`, ascending) and
the GUI's (`ORDER BY a.date DESC, a.time DESC`) return the same rows in
different orders, so the result lists are not equal. -/
theorem view_records_order_counterexample :
    fetch_records_where
        ⟨[⟨"S1", "Alice", "p1"⟩, ⟨"S2", "Bob", "p2"⟩],
         [⟨"S1", "2024-01-01", "09:00:00"⟩, ⟨"S2", "2024-01-02", "09:00:00"⟩]⟩ ≠
      gui_view_all_records
        ⟨[⟨"S1", "Alice", "p1"⟩, ⟨"S2", "Bob", "p2"⟩],
         [⟨"S1", "2024-01-01", "09:00:00"⟩, ⟨"S2", "2024-01-02", "09:00:00"⟩]⟩ := by
  have hlt : ("2024-01-01" : String) < "2024-01-02" := by
    rw [String.lt_iff_toList_lt]; decide
  have hnlt : ¬ ("2024-01-02" : String) < "2024-01-01" := by
    rw [String.lt_iff_toList_lt]; decide
  have hne : ("2024-01-01" : String) ≠ "2024-01-02" := by decide
  have hj : joined_records
      ⟨[⟨"S1", "Alice", "p1"⟩, ⟨"S2", "Bob", "p2"⟩],
       [⟨"S1", "2024-01-01", "09:00:00"⟩, ⟨"S2", "2024-01-02", "09:00:00"⟩]⟩ =
      [⟨"Alice", "S1", "2024-01-01", "09:00:00"⟩,
       ⟨"Bob", "S2", "2024-01-02", "09:00:00"⟩] := by
    simp +decide [joined_records]
  have hA : recordLeAsc ⟨"Alice", "S1", "2024-01-01", "09:00:00"⟩
      ⟨"Bob", "S2", "2024-01-02", "09:00:00"⟩ := Or.inl hlt
  have hD : ¬ recordLeDesc ⟨"Alice", "S1", "2024-01-01", "09:00:00"⟩
      ⟨"Bob", "S2", "2024-01-02", "09:00:00"⟩ := by
    rintro (h | h)
    · exact hnlt h
    · exact hne h.1
  have hasc : fetch_records_where
      ⟨[⟨"S1", "Alice", "p1"⟩, ⟨"S2", "Bob", "p2"⟩],
       [⟨"S1", "2024-01-01", "09:00:00"⟩, ⟨"S2", "2024-01-02", "09:00:00"⟩]⟩ =
      [⟨"Alice", "S1", "2024-01-01", "09:00:00"⟩,
       ⟨"Bob", "S2", "2024-01-02", "09:00:00"⟩] := by
    rw [fetch_records_where, hj]
    simp only [List.insertionSort, List.orderedInsert]
    rw [if_pos hA]
  have hdesc : gui_view_all_records
      ⟨[⟨"S1", "Alice", "p1"⟩, ⟨"S2", "Bob", "p2"⟩],
       [⟨"S1", "2024-01-01", "09:00:00"⟩, ⟨"S2", "2024-01-02", "09:00:00"⟩]⟩ =
      [⟨"Bob", "S2", "2024-01-02", "09:00:00"⟩,
       ⟨"Alice", "S1", "2024-01-01", "09:00:00"⟩] := by
    rw [gui_view_all_records, hj]
    simp only [List.insertionSort, List.orderedInsert]
    rw [if_neg hD]
  rw [hasc, hdesc]
  decide

/-- C6 amended: the three front-ends issue literally identical SQL for the
student upsert, the attendance insert and the marked-today set, hence those
three operations agree exactly on every database state and input; the joined
record retrievals of the three front-ends return the same multiset of rows
(each is a permutation of the unordered join), but the CLI orders ascending by
`(date, time)` while the web and GUI front-ends order descending. -/
theorem front_ends_db_ops_equivalent
    (student_id name image_path date_str time_str today_str : String)
    (students : List StudentRow) (attendance : List AttRow) (db : Db) :
    upsert_student student_id name image_path students =
      web_upsert_student student_id name image_path students ∧
    upsert_student student_id name image_path students =
      gui_upsert_student student_id name image_path students ∧
    cli_insert_attendance student_id date_str time_str attendance =
      web_insert_attendance student_id date_str time_str attendance ∧
    cli_insert_attendance student_id date_str time_str attendance =
      gui_insert_attendance student_id date_str time_str attendance ∧
    load_marked_students_today today_str attendance =
      get_marked_students_today today_str attendance ∧
    load_marked_students_today today_str attendance =
      gui_load_marked_students_today today_str attendance ∧
    web_view_all_records db = gui_view_all_records db ∧
    (fetch_records_where db).Perm (web_view_all_records db) ∧
    (fetch_records_where db).Perm (gui_view_all_records db) := by
  refine ⟨rfl, rfl, rfl, rfl, rfl, rfl, rfl, ?_, ?_⟩
  · exact (List.perm_insertionSort recordLeAsc (joined_records db)).trans
      (List.perm_insertionSort recordLeDesc (joined_records db)).symm
  · exact (List.perm_insertionSort recordLeAsc (joined_records db)).trans
      (List.perm_insertionSort recordLeDesc (joined_records db)).symm

/-- C7 counterexample: the repository does not contain a single try/except: the
census of `try` statements transcribed from the source has four
exception-catching handlers, not one. -/
theorem single_try_except_counterexample :
    (exception_handlers.filter
      (fun h => h.kind = HandlerKind.tryExcept)).length ≠ 1 := by
  decide

/-- C7 amended: the repository contains no retry logic (no handler re-attempts
a failed step), and exception catching is confined to four try/except handlers,
all in the registration flows around image file I/O and face validation (two in
register_student.py, one each in app.py and attendance_gui.py); the only other
`try` statement is a try/finally around the camera loop that catches nothing. -/
theorem try_except_census :
    (exception_handlers.filter
      (fun h => h.kind = HandlerKind.tryExcept)).length = 4 ∧
    (exception_handlers.filter
      (fun h => h.kind = HandlerKind.tryFinallyOnly)).length = 1 ∧
    exception_handlers.all (fun h => !h.retriesFailedStep) = true := by
  refine ⟨by decide, by decide, by decide⟩

end SmartAttendance

namespace SmartAttendance

theorem validate_error_of (loadOk : String → Bool) (numFaces : String → ℕ)
    (suffixOf : String → String) (source_path student_id name : String)
    (files : List String)
    (h : source_path ∉ files ∨ loadOk source_path = false ∨
         numFaces source_path = 0 ∨ 1 < numFaces source_path) :
    ∃ e, validate_and_copy_image loadOk numFaces suffixOf source_path student_id name
      files = .error e := by
  unfold validate_and_copy_image
  by_cases h1 : source_path ∈ files
  · by_cases h2 : loadOk source_path
    · by_cases h3 : numFaces source_path = 0
      · simp [h1, h2, h3]
      · by_cases h4 : 1 < numFaces source_path
        · simp [h1, h2, h3, h4]
        · rcases h with h | h | h | h
          · exact absurd h1 h
          · rw [h2] at h; cases h
          · exact absurd h h3
          · exact absurd h h4
    · simp [h1, h2]
  · simp [h1]

theorem validate_ok_inv (loadOk : String → Bool) (numFaces : String → ℕ)
    (suffixOf : String → String) (source_path student_id name : String)
    (files : List String) (dest : String) (files' : List String)
    (h : validate_and_copy_image loadOk numFaces suffixOf source_path student_id name
      files = .ok (dest, files')) :
    source_path ∈ files ∧ loadOk source_path = true ∧ numFaces source_path = 1 ∧
    dest = dest_image_path student_id name (suffixOf source_path) ∧
    files' = files ++ [dest] := by
  unfold validate_and_copy_image at h
  by_cases h1 : source_path ∈ files
  · by_cases h2 : loadOk source_path
    · by_cases h3 : numFaces source_path = 0
      · simp [h1, h2, h3] at h
      · by_cases h4 : 1 < numFaces source_path
        · simp [h1, h2, h3, h4] at h
        · simp only [h1, h2, h3, h4, not_true_eq_false, not_false_eq_true,
            if_true, if_false, Except.ok.injEq, Prod.mk.injEq] at h
          obtain ⟨hd, hf⟩ := h
          refine ⟨h1, by simpa using h2, by omega, hd.symm, ?_⟩
          rw [← hf, hd]
    · simp [h1, h2] at h
  · simp [h1] at h

/-- C10: if registration fails validation (missing source file, unloadable
image, zero or more than one detected face), `register_student` leaves the
filesystem-and-database state unchanged, inserting no `students` row; and the
`students` table changes only when exactly one face is detected, in which case
it becomes the upsert of the student row whose `image_path` is the destination
file copied into the students directory. -/
theorem register_student_validation_guard (loadOk : String → Bool)
    (numFaces : String → ℕ) (suffixOf : String → String)
    (student_id_input name_input source_path : String) (st : RegState) :
    (source_path ∉ st.files ∨ loadOk source_path = false ∨
        numFaces source_path = 0 ∨ 1 < numFaces source_path →
      register_student loadOk numFaces suffixOf student_id_input name_input
        source_path st = st) ∧
    ((register_student loadOk numFaces suffixOf student_id_input name_input
        source_path st).students ≠ st.students →
      numFaces source_path = 1 ∧
      dest_image_path student_id_input.trim name_input.trim (suffixOf source_path) ∈
        (register_student loadOk numFaces suffixOf student_id_input name_input
          source_path st).files ∧
      (register_student loadOk numFaces suffixOf student_id_input name_input
          source_path st).students =
        upsert_student student_id_input.trim name_input.trim
          (dest_image_path student_id_input.trim name_input.trim (suffixOf source_path))
          st.students) := by
  constructor
  · intro h
    obtain ⟨e, he⟩ := validate_error_of loadOk numFaces suffixOf source_path
      student_id_input.trim name_input.trim st.files h
    unfold register_student
    by_cases h1 : student_id_input.trim = "" ∨ name_input.trim = ""
    · simp [h1]
    · by_cases h2 : source_path = ""
      · simp [h1, h2]
      · simp [h1, h2, he]
  · intro hch
    unfold register_student at hch ⊢
    by_cases h1 : student_id_input.trim = "" ∨ name_input.trim = ""
    · simp [h1] at hch
    · by_cases h2 : source_path = ""
      · simp [h1, h2] at hch
      · simp only [h1, if_false, h2, if_false] at hch ⊢
        cases hv : validate_and_copy_image loadOk numFaces suffixOf source_path
            student_id_input.trim name_input.trim st.files with
        | error e => rw [hv] at hch; simp at hch
        | ok p =>
          obtain ⟨dest, files'⟩ := p
          obtain ⟨hmem, hload, hone, hdest, hfiles⟩ :=
            validate_ok_inv loadOk numFaces suffixOf source_path
              student_id_input.trim name_input.trim st.files dest files' hv
          refine ⟨hone, ?_, ?_⟩
          · show dest_image_path student_id_input.trim name_input.trim
              (suffixOf source_path) ∈ files'
            rw [hfiles, hdest]
            simp
          · show upsert_student student_id_input.trim name_input.trim dest st.students =
              upsert_student student_id_input.trim name_input.trim
                (dest_image_path student_id_input.trim name_input.trim
                  (suffixOf source_path)) st.students
            rw [hdest]

/-- C10 witness: registering from a missing source file leaves the empty state
unchanged. -/
theorem register_student_validation_guard_witness :
    register_student (fun _ => true) (fun _ => 1) (fun _ => ".jpg")
      "S1" "Alice" "a.jpg" ⟨[], []⟩ = ⟨[], []⟩ :=
  (register_student_validation_guard (fun _ => true) (fun _ => 1) (fun _ => ".jpg")
      "S1" "Alice" "a.jpg" ⟨[], []⟩).1 (Or.inl (by simp))

end SmartAttendance
